import Mathlib

/-!
# Verification of the `dos` data-generation and serving pipeline

Shallow embedding of the python sources of the `ddps-lab/dos` repository:

* `src/data-generation/raw-lhs-data-generation.py` — the Shape Sampler
  (`lhs_generate`), the Density Catalog (the `ld_list` / `rd_list`
  constants) and the Feasibility Filter (`lhs_filtering`);
* `src/data-generation/test-set-generation.py` — the Dataset Partitioner
  (`train_set` / `test_set`);
* `src/microservice/lambda_function.py` — the Lambda request handler.

Python / numpy floating point is modelled over `ℚ`; `astype('int')`
(a C cast, truncation toward zero) is modelled by `truncQ`.  Randomness is
made explicit: the Latin-Hypercube draws and the density picks consumed by
`np.random.choice` are inputs of the embedded functions.
-/

namespace Dos

/-- Model of the numpy conversion `astype` to int: truncation toward zero. -/
def truncQ (q : ℚ) : ℤ :=
  if q < 0 then -(⌊-q⌋) else ⌊q⌋

/-- One candidate scenario: the seven columns
`lr, lc, rc, ld, rd, lnnz, rnnz` of the generated DataFrame, after the
`astype` conversion of the five integer-typed columns. -/
structure Scenario where
  lr : ℤ
  lc : ℤ
  rc : ℤ
  ld : ℚ
  rd : ℚ
  lnnz : ℤ
  rnnz : ℤ
  deriving DecidableEq, Repr

/-- Left-matrix density pool measured on the SNAP graph datasets
(`ld_list` of `raw-lhs-data-generation.py`, line 24), as exact decimals. -/
def ld_list : List ℚ :=
  [0.00108175, 0.00082282, 0.00056263, 0.00034241, 0.00015297, 0.00002088,
   0.00163948, 0.00078778, 0.00041097, 0.00019487, 0.00008429, 0.00001651,
   0.02533638, 0.00952101, 0.00296184, 0.00082185, 0.00018467, 0.00000464,
   0.01084252, 0.00860544, 0.00491597, 0.00160539, 0.00047003, 0.00002483,
   0.00370564, 0.00182521, 0.00082487, 0.00031941, 0.00013363, 0.00000434]

/-- Right-matrix density pool (`rd_list` of
`raw-lhs-data-generation.py`, line 26). -/
def rd_list : List ℚ :=
  [0.0005, 0.001, 0.005, 0.01, 0.03, 0.05, 0.07, 0.1, 0.13, 0.15, 0.17,
   0.2, 0.23, 0.25, 0.27, 0.3]

/-- Model of `np.random.choice` on a one-dimensional pool (lines 31-32):
draws `idx.length` values from `pool` with replacement; the random picks
are the explicit index stream `idx`.  numpy raises ValueError when `pool`
is empty. -/
def choice (pool : List ℚ) (idx : List ℕ) : Except String (List ℚ) :=
  if pool.isEmpty then Except.error "a must be non-empty"
  else Except.ok (idx.map (fun i => pool.getD (i % pool.length) 0))

/-- One row of `lhs_generate`'s output: the scaled draws
`u1 * 150000`, `u2 * 100000`, `u3 * 50000` (lines 18-20), the non-zero
counts `lnnz = lr * lc * ld`, `rnnz = lc * rc * rd` computed on the
unconverted floating values (lines 35-37), and the final `astype`
truncation of the five integer columns (line 43). -/
def mkScenario (u1 u2 u3 d1 d2 : ℚ) : Scenario :=
  let lr : ℚ := u1 * 150000
  let lc : ℚ := u2 * 100000
  let rc : ℚ := u3 * 50000
  let lnnz : ℚ := lr * lc * d1
  let rnnz : ℚ := lc * rc * d2
  { lr := truncQ lr, lc := truncQ lc, rc := truncQ rc, ld := d1, rd := d2,
    lnnz := truncQ lnnz, rnnz := truncQ rnnz }

/-- Row-wise assembly of the seven columns (`np.concatenate` on axis 1 and
the DataFrame construction, lines 40-43). -/
def mkScenarios : List ℚ → List ℚ → List ℚ → List ℚ → List ℚ → List Scenario
  | a :: as, b :: bs, c :: cs, d :: ds, e :: es =>
      mkScenario a b c d e :: mkScenarios as bs cs ds es
  | _, _, _, _, _ => []

/-- The Shape Sampler `lhs_generate` (lines 10-45) with its randomness
made explicit:
`u1, u2, u3` are the pre-scaling Latin-Hypercube draws in `[0,1)` for the
three shape dimensions (one list entry per sample), and `i1, i2` are the
random picks consumed by `np.random.choice` on the two density pools.
The function performs no validation of its own: it scales the draws,
draws densities with replacement, derives the non-zero counts and
truncates the five integer columns. -/
def lhs_generate (u1 u2 u3 : List ℚ) (i1 i2 : List ℕ) :
    Except String (List Scenario) :=
  match choice ld_list i1 with
  | Except.error e => Except.error e
  | Except.ok d1 =>
      match choice rd_list i2 with
      | Except.error e => Except.error e
      | Except.ok d2 => Except.ok (mkScenarios u1 u2 u3 d1 d2)

/-- The Feasibility Filter `lhs_filtering` (lines 48-65): four successive
boolean-mask filters on the DataFrame, each keeping the rows that satisfy
its predicate and preserving their order. -/
def lhs_filtering (in_df : List Scenario) : List Scenario :=
  let intmaxvalue : ℤ := 2147483647
  let df1 := in_df.filter (fun s => decide (s.lnnz < intmaxvalue))
  let df2 := df1.filter (fun s => decide (s.lc * s.rc < intmaxvalue))
  let df3 := df2.filter (fun s => decide (s.lr * s.rc < intmaxvalue))
  df3.filter (fun s => decide (s.lnnz < 70000000) && decide (s.rnnz < 70000000))

/-- The four feasibility predicates of spec §4.3, as one conjunction
(spec side of the refinement claim C1). -/
def specFeasible (s : Scenario) : Bool :=
  decide (s.lnnz < 2147483647) && decide (s.lc * s.rc < 2147483647) &&
  decide (s.lr * s.rc < 2147483647) &&
  (decide (s.lnnz < 70000000) && decide (s.rnnz < 70000000))

theorem lhs_filtering_eq_filter (l : List Scenario) :
    lhs_filtering l = l.filter specFeasible := by
  simp only [lhs_filtering, List.filter_filter]
  apply List.filter_congr
  intro s _
  simp only [specFeasible]
  cases decide (s.lnnz < 2147483647) <;>
    cases decide (s.lc * s.rc < 2147483647) <;>
    cases decide (s.lr * s.rc < 2147483647) <;>
    cases decide (s.lnnz < 70000000) <;>
    cases decide (s.rnnz < 70000000) <;> rfl

theorem specFeasible_iff (s : Scenario) :
    specFeasible s = true ↔
      (s.lnnz < 2147483647 ∧ s.lc * s.rc < 2147483647 ∧
       s.lr * s.rc < 2147483647 ∧ (s.lnnz < 70000000 ∧ s.rnnz < 70000000)) := by
  simp [specFeasible, and_assoc]

/-- C1: the Feasibility Filter keeps exactly the subsequence of input
scenarios on which all four feasibility predicates hold, in input order,
and every excluded scenario violates at least one predicate. -/
theorem c1_filter_soundness (l : List Scenario) :
    lhs_filtering l = l.filter specFeasible ∧
    (lhs_filtering l).Sublist l ∧
    (∀ s ∈ lhs_filtering l,
      s.lnnz < 2147483647 ∧ s.lc * s.rc < 2147483647 ∧
      s.lr * s.rc < 2147483647 ∧ (s.lnnz < 70000000 ∧ s.rnnz < 70000000)) ∧
    (∀ s ∈ l, s ∉ lhs_filtering l →
      ¬(s.lnnz < 2147483647 ∧ s.lc * s.rc < 2147483647 ∧
        s.lr * s.rc < 2147483647 ∧ (s.lnnz < 70000000 ∧ s.rnnz < 70000000))) := by
  refine ⟨lhs_filtering_eq_filter l, ?_, ?_, ?_⟩
  · rw [lhs_filtering_eq_filter]
    exact List.filter_sublist l
  · intro s hs
    rw [lhs_filtering_eq_filter, List.mem_filter] at hs
    exact (specFeasible_iff s).mp hs.2
  · intro s hsl hsf hfeas
    apply hsf
    rw [lhs_filtering_eq_filter, List.mem_filter]
    exact ⟨hsl, (specFeasible_iff s).mpr hfeas⟩

/-- C7: the Feasibility Filter is idempotent — filtering its own output
changes nothing. -/
theorem c7_filter_idempotent (l : List Scenario) :
    lhs_filtering (lhs_filtering l) = lhs_filtering l := by
  rw [lhs_filtering_eq_filter (lhs_filtering l), lhs_filtering_eq_filter l,
    List.filter_filter]
  apply List.filter_congr
  intro s _
  cases specFeasible s <;> rfl

theorem truncQ_of_nonneg (q : ℚ) (h : 0 ≤ q) : truncQ q = ⌊q⌋ := by
  simp [truncQ, not_lt.mpr h]

theorem truncQ_eq_of (q : ℚ) (z : ℤ) (h0 : ¬q < 0) (h1 : (z : ℚ) ≤ q)
    (h2 : q < z + 1) : truncQ q = z := by
  unfold truncQ
  rw [if_neg h0]
  exact Int.floor_eq_iff.mpr ⟨h1, h2⟩

theorem floorQ_eq_of (q : ℚ) (z : ℤ) (h1 : (z : ℚ) ≤ q) (h2 : q < z + 1) :
    ⌊q⌋ = z := Int.floor_eq_iff.mpr ⟨h1, h2⟩

theorem mkScenario_lr (u1 u2 u3 d1 d2 : ℚ) :
    (mkScenario u1 u2 u3 d1 d2).lr = truncQ (u1 * 150000) := rfl

theorem mkScenario_lc (u1 u2 u3 d1 d2 : ℚ) :
    (mkScenario u1 u2 u3 d1 d2).lc = truncQ (u2 * 100000) := rfl

theorem mkScenario_rc (u1 u2 u3 d1 d2 : ℚ) :
    (mkScenario u1 u2 u3 d1 d2).rc = truncQ (u3 * 50000) := rfl

theorem mkScenario_ld (u1 u2 u3 d1 d2 : ℚ) :
    (mkScenario u1 u2 u3 d1 d2).ld = d1 := rfl

theorem mkScenario_rd (u1 u2 u3 d1 d2 : ℚ) :
    (mkScenario u1 u2 u3 d1 d2).rd = d2 := rfl

theorem mkScenario_lnnz (u1 u2 u3 d1 d2 : ℚ) :
    (mkScenario u1 u2 u3 d1 d2).lnnz = truncQ (u1 * 150000 * (u2 * 100000) * d1) := rfl

theorem mkScenario_rnnz (u1 u2 u3 d1 d2 : ℚ) :
    (mkScenario u1 u2 u3 d1 d2).rnnz = truncQ (u2 * 100000 * (u3 * 50000) * d2) := rfl

/-- C2 counterexample: for the Latin-Hypercube draws scaling to
`lr = 1000.9`, `lc = 500.9`, `rc = 200` with densities
`ld = 0.00108175` (the first pool entry) and `rd = 0.0005`, the generated
scenario has `lnnz = 542 = trunc(1000.9 * 500.9 * 0.00108175)`, while
rounding the product of the integer dimension fields gives
`round(1000 * 500 * 0.00108175) = 541 ≠ 542`. -/
theorem c2_counterexample :
    lhs_generate [(10009 : ℚ)/1500000] [(5009 : ℚ)/1000000] [(1 : ℚ)/250] [0] [0] =
      Except.ok [mkScenario ((10009 : ℚ)/1500000) ((5009 : ℚ)/1000000) ((1 : ℚ)/250)
        (0.00108175 : ℚ) (0.0005 : ℚ)] ∧
    (mkScenario ((10009 : ℚ)/1500000) ((5009 : ℚ)/1000000) ((1 : ℚ)/250)
        (0.00108175 : ℚ) (0.0005 : ℚ)).lr = 1000 ∧
    (mkScenario ((10009 : ℚ)/1500000) ((5009 : ℚ)/1000000) ((1 : ℚ)/250)
        (0.00108175 : ℚ) (0.0005 : ℚ)).lc = 500 ∧
    (mkScenario ((10009 : ℚ)/1500000) ((5009 : ℚ)/1000000) ((1 : ℚ)/250)
        (0.00108175 : ℚ) (0.0005 : ℚ)).ld = (0.00108175 : ℚ) ∧
    (mkScenario ((10009 : ℚ)/1500000) ((5009 : ℚ)/1000000) ((1 : ℚ)/250)
        (0.00108175 : ℚ) (0.0005 : ℚ)).lnnz = 542 ∧
    round ((1000 : ℚ) * 500 * (0.00108175 : ℚ)) = 541 := by
  refine ⟨rfl, ?_, ?_, rfl, ?_, ?_⟩
  · rw [mkScenario_lr]
    apply truncQ_eq_of <;> norm_num
  · rw [mkScenario_lc]
    apply truncQ_eq_of <;> norm_num
  · rw [mkScenario_lnnz]
    apply truncQ_eq_of <;> norm_num
  · rw [round_eq]
    apply floorQ_eq_of <;> norm_num

theorem floor_cast_nonneg (q : ℚ) (h : 0 ≤ q) : (0 : ℚ) ≤ (⌊q⌋ : ℚ) :=
  Int.cast_nonneg.mpr (Int.floor_nonneg.mpr h)

/-- C2 amended: in a generated scenario the non-zero counts are the
truncation (floor) of the product of the pre-truncation (unconverted
floating) dimension values with the density — not a rounding of the
product of the integer dimension fields; the latter only bounds the
stored count from below. -/
theorem c2_amended_nnz_from_floats (u1 u2 u3 d1 d2 : ℚ) (h1 : 0 ≤ u1)
    (h2 : 0 ≤ u2) (h3 : 0 ≤ u3) (hd1 : 0 ≤ d1) (hd2 : 0 ≤ d2) :
    (mkScenario u1 u2 u3 d1 d2).lnnz = ⌊u1 * 150000 * (u2 * 100000) * d1⌋ ∧
    (mkScenario u1 u2 u3 d1 d2).rnnz = ⌊u2 * 100000 * (u3 * 50000) * d2⌋ ∧
    ⌊((mkScenario u1 u2 u3 d1 d2).lr : ℚ) * ((mkScenario u1 u2 u3 d1 d2).lc : ℚ) * d1⌋ ≤
      (mkScenario u1 u2 u3 d1 d2).lnnz ∧
    ⌊((mkScenario u1 u2 u3 d1 d2).lc : ℚ) * ((mkScenario u1 u2 u3 d1 d2).rc : ℚ) * d2⌋ ≤
      (mkScenario u1 u2 u3 d1 d2).rnnz := by
  have ha : 0 ≤ u1 * 150000 := by positivity
  have hb : 0 ≤ u2 * 100000 := by positivity
  have hc : 0 ≤ u3 * 50000 := by positivity
  have e1 : (mkScenario u1 u2 u3 d1 d2).lr = ⌊u1 * 150000⌋ := by
    rw [mkScenario_lr, truncQ_of_nonneg _ ha]
  have e2 : (mkScenario u1 u2 u3 d1 d2).lc = ⌊u2 * 100000⌋ := by
    rw [mkScenario_lc, truncQ_of_nonneg _ hb]
  have e3 : (mkScenario u1 u2 u3 d1 d2).rc = ⌊u3 * 50000⌋ := by
    rw [mkScenario_rc, truncQ_of_nonneg _ hc]
  have e4 : (mkScenario u1 u2 u3 d1 d2).lnnz = ⌊u1 * 150000 * (u2 * 100000) * d1⌋ := by
    rw [mkScenario_lnnz, truncQ_of_nonneg]
    positivity
  have e5 : (mkScenario u1 u2 u3 d1 d2).rnnz = ⌊u2 * 100000 * (u3 * 50000) * d2⌋ := by
    rw [mkScenario_rnnz, truncQ_of_nonneg]
    positivity
  refine ⟨e4, e5, ?_, ?_⟩
  · rw [e1, e2, e4]
    apply Int.floor_le_floor
    apply mul_le_mul_of_nonneg_right _ hd1
    exact mul_le_mul (Int.floor_le _) (Int.floor_le _) (floor_cast_nonneg _ hb) ha
  · rw [e2, e3, e5]
    apply Int.floor_le_floor
    apply mul_le_mul_of_nonneg_right _ hd2
    exact mul_le_mul (Int.floor_le _) (Int.floor_le _) (floor_cast_nonneg _ hc) hb

/-- Witness for the amended C2 at the concrete draws of the
counterexample scenario. -/
theorem c2_amended_nnz_from_floats_witness :
    (mkScenario ((10009 : ℚ)/1500000) ((5009 : ℚ)/1000000) ((1 : ℚ)/250)
        (0.00108175 : ℚ) (0.0005 : ℚ)).lnnz =
      ⌊(10009 : ℚ)/1500000 * 150000 * ((5009 : ℚ)/1000000 * 100000) * (0.00108175 : ℚ)⌋ ∧
    (mkScenario ((10009 : ℚ)/1500000) ((5009 : ℚ)/1000000) ((1 : ℚ)/250)
        (0.00108175 : ℚ) (0.0005 : ℚ)).rnnz =
      ⌊(5009 : ℚ)/1000000 * 100000 * ((1 : ℚ)/250 * 50000) * (0.0005 : ℚ)⌋ ∧
    ⌊((mkScenario ((10009 : ℚ)/1500000) ((5009 : ℚ)/1000000) ((1 : ℚ)/250)
        (0.00108175 : ℚ) (0.0005 : ℚ)).lr : ℚ) *
      ((mkScenario ((10009 : ℚ)/1500000) ((5009 : ℚ)/1000000) ((1 : ℚ)/250)
        (0.00108175 : ℚ) (0.0005 : ℚ)).lc : ℚ) * (0.00108175 : ℚ)⌋ ≤
      (mkScenario ((10009 : ℚ)/1500000) ((5009 : ℚ)/1000000) ((1 : ℚ)/250)
        (0.00108175 : ℚ) (0.0005 : ℚ)).lnnz ∧
    ⌊((mkScenario ((10009 : ℚ)/1500000) ((5009 : ℚ)/1000000) ((1 : ℚ)/250)
        (0.00108175 : ℚ) (0.0005 : ℚ)).lc : ℚ) *
      ((mkScenario ((10009 : ℚ)/1500000) ((5009 : ℚ)/1000000) ((1 : ℚ)/250)
        (0.00108175 : ℚ) (0.0005 : ℚ)).rc : ℚ) * (0.0005 : ℚ)⌋ ≤
      (mkScenario ((10009 : ℚ)/1500000) ((5009 : ℚ)/1000000) ((1 : ℚ)/250)
        (0.00108175 : ℚ) (0.0005 : ℚ)).rnnz :=
  c2_amended_nnz_from_floats ((10009 : ℚ)/1500000) ((5009 : ℚ)/1000000) ((1 : ℚ)/250)
    (0.00108175 : ℚ) (0.0005 : ℚ) (by norm_num) (by norm_num) (by norm_num)
    (by norm_num) (by norm_num)

theorem mkScenario_lr_floor (u1 u2 u3 d1 d2 : ℚ) (h : 0 ≤ u1) :
    (mkScenario u1 u2 u3 d1 d2).lr = ⌊u1 * 150000⌋ := by
  rw [mkScenario_lr, truncQ_of_nonneg]
  positivity

theorem mkScenario_lc_floor (u1 u2 u3 d1 d2 : ℚ) (h : 0 ≤ u2) :
    (mkScenario u1 u2 u3 d1 d2).lc = ⌊u2 * 100000⌋ := by
  rw [mkScenario_lc, truncQ_of_nonneg]
  positivity

theorem mkScenario_rc_floor (u1 u2 u3 d1 d2 : ℚ) (h : 0 ≤ u3) :
    (mkScenario u1 u2 u3 d1 d2).rc = ⌊u3 * 50000⌋ := by
  rw [mkScenario_rc, truncQ_of_nonneg]
  positivity

theorem mkScenario_lnnz_floor (u1 u2 u3 d1 d2 : ℚ) (h1 : 0 ≤ u1) (h2 : 0 ≤ u2)
    (hd : 0 ≤ d1) : (mkScenario u1 u2 u3 d1 d2).lnnz = ⌊u1 * 150000 * (u2 * 100000) * d1⌋ := by
  rw [mkScenario_lnnz, truncQ_of_nonneg]
  positivity

theorem mkScenario_rnnz_floor (u1 u2 u3 d1 d2 : ℚ) (h2 : 0 ≤ u2) (h3 : 0 ≤ u3)
    (hd : 0 ≤ d2) : (mkScenario u1 u2 u3 d1 d2).rnnz = ⌊u2 * 100000 * (u3 * 50000) * d2⌋ := by
  rw [mkScenario_rnnz, truncQ_of_nonneg]
  positivity

/-- C3 counterexample: for the Latin-Hypercube draws scaling to
`lr = 0.9`, `lc = 99999` with density `ld = 0.02533638` (the 13th pool
entry), the generated scenario has integer fields `lr = 0`, `lc = 99999`
but `lnnz = trunc(0.9 * 99999 * 0.02533638) = 2280 > 0 = lr * lc`:
the invariant `nnz_left ≤ rows_left * cols_left` fails on the
post-truncation fields. -/
theorem c3_counterexample :
    lhs_generate [(3 : ℚ)/500000] [(99999 : ℚ)/100000] [(1 : ℚ)/250] [12] [0] =
      Except.ok [mkScenario ((3 : ℚ)/500000) ((99999 : ℚ)/100000) ((1 : ℚ)/250)
        (0.02533638 : ℚ) (0.0005 : ℚ)] ∧
    (mkScenario ((3 : ℚ)/500000) ((99999 : ℚ)/100000) ((1 : ℚ)/250)
        (0.02533638 : ℚ) (0.0005 : ℚ)).lr = 0 ∧
    (mkScenario ((3 : ℚ)/500000) ((99999 : ℚ)/100000) ((1 : ℚ)/250)
        (0.02533638 : ℚ) (0.0005 : ℚ)).lc = 99999 ∧
    (mkScenario ((3 : ℚ)/500000) ((99999 : ℚ)/100000) ((1 : ℚ)/250)
        (0.02533638 : ℚ) (0.0005 : ℚ)).lnnz = 2280 ∧
    ¬((mkScenario ((3 : ℚ)/500000) ((99999 : ℚ)/100000) ((1 : ℚ)/250)
        (0.02533638 : ℚ) (0.0005 : ℚ)).lnnz ≤
      (mkScenario ((3 : ℚ)/500000) ((99999 : ℚ)/100000) ((1 : ℚ)/250)
        (0.02533638 : ℚ) (0.0005 : ℚ)).lr *
      (mkScenario ((3 : ℚ)/500000) ((99999 : ℚ)/100000) ((1 : ℚ)/250)
        (0.02533638 : ℚ) (0.0005 : ℚ)).lc) := by
  have hlr : (mkScenario ((3 : ℚ)/500000) ((99999 : ℚ)/100000) ((1 : ℚ)/250)
      (0.02533638 : ℚ) (0.0005 : ℚ)).lr = 0 := by
    rw [mkScenario_lr]
    apply truncQ_eq_of <;> norm_num
  have hlc : (mkScenario ((3 : ℚ)/500000) ((99999 : ℚ)/100000) ((1 : ℚ)/250)
      (0.02533638 : ℚ) (0.0005 : ℚ)).lc = 99999 := by
    rw [mkScenario_lc]
    apply truncQ_eq_of <;> norm_num
  have hlnnz : (mkScenario ((3 : ℚ)/500000) ((99999 : ℚ)/100000) ((1 : ℚ)/250)
      (0.02533638 : ℚ) (0.0005 : ℚ)).lnnz = 2280 := by
    rw [mkScenario_lnnz]
    apply truncQ_eq_of <;> norm_num
  refine ⟨rfl, hlr, hlc, hlnnz, ?_⟩
  rw [hlr, hlc, hlnnz]
  norm_num

/-- C3 amended: the derived counts are bounded by the product of the
pre-truncation dimension values, hence strictly below
`(rows_left + 1) * (cols_left + 1)` (resp.
`(cols_left + 1) * (cols_right + 1)`) on the integer fields; the bound
`nnz_left ≤ rows_left * cols_left` itself can fail because the counts are
derived from the unconverted floating dimensions. -/
theorem c3_amended_nnz_bound (u1 u2 u3 d1 d2 : ℚ) (h1 : 0 ≤ u1) (h2 : 0 ≤ u2)
    (h3 : 0 ≤ u3) (hd1 : 0 ≤ d1) (hd1one : d1 ≤ 1) (hd2 : 0 ≤ d2) (hd2one : d2 ≤ 1) :
    (mkScenario u1 u2 u3 d1 d2).lnnz <
      ((mkScenario u1 u2 u3 d1 d2).lr + 1) * ((mkScenario u1 u2 u3 d1 d2).lc + 1) ∧
    (mkScenario u1 u2 u3 d1 d2).rnnz <
      ((mkScenario u1 u2 u3 d1 d2).lc + 1) * ((mkScenario u1 u2 u3 d1 d2).rc + 1) := by
  have ha : 0 ≤ u1 * 150000 := by positivity
  have hb : 0 ≤ u2 * 100000 := by positivity
  have hc : 0 ≤ u3 * 50000 := by positivity
  constructor
  · rw [mkScenario_lr_floor _ _ _ _ _ h1, mkScenario_lc_floor _ _ _ _ _ h2,
      mkScenario_lnnz_floor _ _ _ _ _ h1 h2 hd1]
    apply Int.floor_lt.mpr
    push_cast
    calc u1 * 150000 * (u2 * 100000) * d1 ≤ u1 * 150000 * (u2 * 100000) :=
          mul_le_of_le_one_right (by positivity) hd1one
      _ < ((⌊u1 * 150000⌋ : ℚ) + 1) * ((⌊u2 * 100000⌋ : ℚ) + 1) :=
          mul_lt_mul'' (Int.lt_floor_add_one _) (Int.lt_floor_add_one _) ha hb
  · rw [mkScenario_lc_floor _ _ _ _ _ h2, mkScenario_rc_floor _ _ _ _ _ h3,
      mkScenario_rnnz_floor _ _ _ _ _ h2 h3 hd2]
    apply Int.floor_lt.mpr
    push_cast
    calc u2 * 100000 * (u3 * 50000) * d2 ≤ u2 * 100000 * (u3 * 50000) :=
          mul_le_of_le_one_right (by positivity) hd2one
      _ < ((⌊u2 * 100000⌋ : ℚ) + 1) * ((⌊u3 * 50000⌋ : ℚ) + 1) :=
          mul_lt_mul'' (Int.lt_floor_add_one _) (Int.lt_floor_add_one _) hb hc

/-- Witness for the amended C3 at the draws of its counterexample
scenario. -/
theorem c3_amended_nnz_bound_witness :
    (mkScenario ((3 : ℚ)/500000) ((99999 : ℚ)/100000) ((1 : ℚ)/250)
        (0.02533638 : ℚ) (0.0005 : ℚ)).lnnz <
      ((mkScenario ((3 : ℚ)/500000) ((99999 : ℚ)/100000) ((1 : ℚ)/250)
        (0.02533638 : ℚ) (0.0005 : ℚ)).lr + 1) *
      ((mkScenario ((3 : ℚ)/500000) ((99999 : ℚ)/100000) ((1 : ℚ)/250)
        (0.02533638 : ℚ) (0.0005 : ℚ)).lc + 1) ∧
    (mkScenario ((3 : ℚ)/500000) ((99999 : ℚ)/100000) ((1 : ℚ)/250)
        (0.02533638 : ℚ) (0.0005 : ℚ)).rnnz <
      ((mkScenario ((3 : ℚ)/500000) ((99999 : ℚ)/100000) ((1 : ℚ)/250)
        (0.02533638 : ℚ) (0.0005 : ℚ)).lc + 1) *
      ((mkScenario ((3 : ℚ)/500000) ((99999 : ℚ)/100000) ((1 : ℚ)/250)
        (0.02533638 : ℚ) (0.0005 : ℚ)).rc + 1) :=
  c3_amended_nnz_bound ((3 : ℚ)/500000) ((99999 : ℚ)/100000) ((1 : ℚ)/250)
    (0.02533638 : ℚ) (0.0005 : ℚ) (by norm_num) (by norm_num) (by norm_num)
    (by norm_num) (by norm_num) (by norm_num) (by norm_num)

/-- C4 counterexample: the draw `u = 3/500000` (inside the first of the
2,500,000 Latin-Hypercube strata) scales to `0.9`, which truncates to a
row count of `0`: generated dimension fields are not always positive. -/
theorem c4_counterexample :
    lhs_generate [(3 : ℚ)/500000] [(99999 : ℚ)/100000] [(1 : ℚ)/250] [12] [0] =
      Except.ok [mkScenario ((3 : ℚ)/500000) ((99999 : ℚ)/100000) ((1 : ℚ)/250)
        (0.02533638 : ℚ) (0.0005 : ℚ)] ∧
    ¬(0 < (mkScenario ((3 : ℚ)/500000) ((99999 : ℚ)/100000) ((1 : ℚ)/250)
        (0.02533638 : ℚ) (0.0005 : ℚ)).lr) := by
  have hlr : (mkScenario ((3 : ℚ)/500000) ((99999 : ℚ)/100000) ((1 : ℚ)/250)
      (0.02533638 : ℚ) (0.0005 : ℚ)).lr = 0 := by
    rw [mkScenario_lr]
    apply truncQ_eq_of <;> norm_num
  exact ⟨rfl, by rw [hlr]; norm_num⟩

/-- C4 amended: each generated dimension field is a non-negative integer
strictly below its scaling maximum (rows 150,000; inner columns 100,000;
right columns 50,000), obtained by scaling a `[0,1)` draw and truncating;
it can be zero, so positivity does not hold in general. -/
theorem c4_amended_dims_nonneg_bounded (u1 u2 u3 d1 d2 : ℚ) (h1 : 0 ≤ u1)
    (h1u : u1 < 1) (h2 : 0 ≤ u2) (h2u : u2 < 1) (h3 : 0 ≤ u3) (h3u : u3 < 1) :
    (0 ≤ (mkScenario u1 u2 u3 d1 d2).lr ∧ (mkScenario u1 u2 u3 d1 d2).lr < 150000) ∧
    (0 ≤ (mkScenario u1 u2 u3 d1 d2).lc ∧ (mkScenario u1 u2 u3 d1 d2).lc < 100000) ∧
    (0 ≤ (mkScenario u1 u2 u3 d1 d2).rc ∧ (mkScenario u1 u2 u3 d1 d2).rc < 50000) := by
  rw [mkScenario_lr_floor _ _ _ _ _ h1, mkScenario_lc_floor _ _ _ _ _ h2,
    mkScenario_rc_floor _ _ _ _ _ h3]
  refine ⟨⟨Int.floor_nonneg.mpr (by positivity), Int.floor_lt.mpr ?_⟩,
    ⟨Int.floor_nonneg.mpr (by positivity), Int.floor_lt.mpr ?_⟩,
    ⟨Int.floor_nonneg.mpr (by positivity), Int.floor_lt.mpr ?_⟩⟩
  · push_cast
    nlinarith
  · push_cast
    nlinarith
  · push_cast
    nlinarith

/-- Witness for the amended C4 at the draws of its counterexample
scenario. -/
theorem c4_amended_dims_nonneg_bounded_witness :
    (0 ≤ (mkScenario ((3 : ℚ)/500000) ((99999 : ℚ)/100000) ((1 : ℚ)/250)
        (0.02533638 : ℚ) (0.0005 : ℚ)).lr ∧
      (mkScenario ((3 : ℚ)/500000) ((99999 : ℚ)/100000) ((1 : ℚ)/250)
        (0.02533638 : ℚ) (0.0005 : ℚ)).lr < 150000) ∧
    (0 ≤ (mkScenario ((3 : ℚ)/500000) ((99999 : ℚ)/100000) ((1 : ℚ)/250)
        (0.02533638 : ℚ) (0.0005 : ℚ)).lc ∧
      (mkScenario ((3 : ℚ)/500000) ((99999 : ℚ)/100000) ((1 : ℚ)/250)
        (0.02533638 : ℚ) (0.0005 : ℚ)).lc < 100000) ∧
    (0 ≤ (mkScenario ((3 : ℚ)/500000) ((99999 : ℚ)/100000) ((1 : ℚ)/250)
        (0.02533638 : ℚ) (0.0005 : ℚ)).rc ∧
      (mkScenario ((3 : ℚ)/500000) ((99999 : ℚ)/100000) ((1 : ℚ)/250)
        (0.02533638 : ℚ) (0.0005 : ℚ)).rc < 50000) :=
  c4_amended_dims_nonneg_bounded ((3 : ℚ)/500000) ((99999 : ℚ)/100000) ((1 : ℚ)/250)
    (0.02533638 : ℚ) (0.0005 : ℚ) (by norm_num) (by norm_num) (by norm_num)
    (by norm_num) (by norm_num) (by norm_num)

/-- Spec side of C5: every consecutive gap of the list equals the first
gap (the sweep is evenly spaced). -/
def evenlySpacedList (l : List ℚ) : Prop :=
  ∀ i, i + 2 ≤ l.length → l.getD (i + 1) 0 - l.getD i 0 = l.getD 1 0 - l.getD 0 0

/-- Spec side of C5: an evenly-spaced sweep of exactly 16 values from
0.0005 to 0.30. -/
def specRdSweep (l : List ℚ) : Prop :=
  l.length = 16 ∧ l.getD 0 0 = 0.0005 ∧ l.getD 15 0 = 0.3 ∧ evenlySpacedList l

/-- C5 counterexample: the right-density pool is not evenly spaced — its
first gap is `0.001 - 0.0005 = 0.0005` while its second gap is
`0.005 - 0.001 = 0.004`. -/
theorem c5_counterexample : ¬specRdSweep rd_list := by
  rintro ⟨-, -, -, h⟩
  have h1 := h 1 (by norm_num [rd_list])
  simp only [rd_list, List.getD_cons_succ, List.getD_cons_zero] at h1
  norm_num at h1

theorem choice_ok_mem (pool : List ℚ) (idx : List ℕ) (ds : List ℚ)
    (h : choice pool idx = Except.ok ds) : ∀ d ∈ ds, d ∈ pool := by
  unfold choice at h
  by_cases hp : pool.isEmpty
  · rw [if_pos hp] at h
    exact absurd h (by simp)
  · rw [if_neg hp] at h
    have hlen : 0 < pool.length := by
      cases pool with
      | nil => simp at hp
      | cons a t => simp
    have hds : idx.map (fun i => pool.getD (i % pool.length) 0) = ds :=
      Except.ok.inj h
    intro d hd
    rw [← hds] at hd
    obtain ⟨i, hi, rfl⟩ := List.mem_map.mp hd
    have hmod : i % pool.length < pool.length := Nat.mod_lt _ hlen
    rw [List.getD_eq_getElem _ _ hmod]
    exact List.getElem_mem hmod

/-- C5 amended: the Density Catalog is two fixed constant pools — 30
left densities all strictly between 0 and 1, and 16 right densities
forming a strictly increasing (but not evenly spaced) sweep from 0.0005
to 0.30 — and every successful density draw returns values from the
corresponding pool (sampling with replacement). -/
theorem c5_amended_density_pools (idx1 idx2 : List ℕ) (ds1 ds2 : List ℚ)
    (h1 : choice ld_list idx1 = Except.ok ds1)
    (h2 : choice rd_list idx2 = Except.ok ds2) :
    ld_list.length = 30 ∧ (∀ x ∈ ld_list, 0 < x ∧ x < 1) ∧
    rd_list.length = 16 ∧ rd_list.getD 0 0 = 0.0005 ∧ rd_list.getD 15 0 = 0.3 ∧
    rd_list.Chain' (· < ·) ∧
    (∀ d ∈ ds1, d ∈ ld_list) ∧ (∀ d ∈ ds2, d ∈ rd_list) := by
  refine ⟨rfl, ?_, rfl, ?_, ?_, ?_, choice_ok_mem _ _ _ h1, choice_ok_mem _ _ _ h2⟩
  · simp only [ld_list, List.forall_mem_cons]
    norm_num
  · norm_num [rd_list]
  · norm_num [rd_list]
  · simp only [rd_list, List.chain'_cons, List.chain'_singleton]
    norm_num

/-- Witness for the amended C5: a concrete successful draw from each
pool. -/
theorem c5_amended_density_pools_witness :
    choice ld_list [0] = Except.ok [(0.00108175 : ℚ)] ∧
    choice rd_list [0] = Except.ok [(0.0005 : ℚ)] ∧
    (ld_list.length = 30 ∧ (∀ x ∈ ld_list, 0 < x ∧ x < 1) ∧
     rd_list.length = 16 ∧ rd_list.getD 0 0 = 0.0005 ∧ rd_list.getD 15 0 = 0.3 ∧
     rd_list.Chain' (· < ·) ∧
     (∀ d ∈ [(0.00108175 : ℚ)], d ∈ ld_list) ∧
     (∀ d ∈ [(0.0005 : ℚ)], d ∈ rd_list)) :=
  ⟨rfl, rfl, c5_amended_density_pools [0] [0] [(0.00108175 : ℚ)] [(0.0005 : ℚ)] rfl rfl⟩

theorem mkScenarios_length (as : List ℚ) : ∀ (bs cs ds es : List ℚ),
    bs.length = as.length → cs.length = as.length → ds.length = as.length →
    es.length = as.length → (mkScenarios as bs cs ds es).length = as.length := by
  induction as with
  | nil => intro bs cs ds es _ _ _ _; cases bs <;> cases cs <;> cases ds <;> cases es <;> rfl
  | cons a t ih =>
      intro bs cs ds es h1 h2 h3 h4
      cases bs with
      | nil => simp at h1
      | cons b tb =>
          cases cs with
          | nil => simp at h2
          | cons c tc =>
              cases ds with
              | nil => simp at h3
              | cons d td =>
                  cases es with
                  | nil => simp at h4
                  | cons e te =>
                      simp only [mkScenarios, List.length_cons] at h1 h2 h3 h4 ⊢
                      rw [ih tb tc td te (by omega) (by omega) (by omega) (by omega)]

/-- C8 counterexample: with a sample count of zero (no draws at all) the
generator returns successfully with an empty scenario list; it does not
fail, fast or otherwise, on a non-positive sample count. -/
theorem c8_counterexample :
    lhs_generate ([] : List ℚ) ([] : List ℚ) ([] : List ℚ) ([] : List ℕ) ([] : List ℕ) =
      Except.ok ([] : List Scenario) := rfl

/-- C8 amended: the generator performs no configuration validation; both
density pools are non-empty constants, so density drawing always
succeeds, and for `N` draws per shape dimension and `N` density picks it
returns `Except.ok` with exactly `N` scenarios (each carrying all seven
fields by construction), dropping none — including `N = 0`, where it
succeeds with an empty output instead of failing. -/
theorem c8_amended_generate_total (N : ℕ) (u1 u2 u3 : List ℚ) (i1 i2 : List ℕ)
    (hu1 : u1.length = N) (hu2 : u2.length = N) (hu3 : u3.length = N)
    (hi1 : i1.length = N) (hi2 : i2.length = N) :
    lhs_generate u1 u2 u3 i1 i2 =
      Except.ok (mkScenarios u1 u2 u3
        (i1.map (fun i => ld_list.getD (i % ld_list.length) 0))
        (i2.map (fun i => rd_list.getD (i % rd_list.length) 0))) ∧
    ∀ out, lhs_generate u1 u2 u3 i1 i2 = Except.ok out → out.length = N := by
  have hgen : lhs_generate u1 u2 u3 i1 i2 =
      Except.ok (mkScenarios u1 u2 u3
        (i1.map (fun i => ld_list.getD (i % ld_list.length) 0))
        (i2.map (fun i => rd_list.getD (i % rd_list.length) 0))) := rfl
  refine ⟨hgen, ?_⟩
  intro out hout
  rw [hgen] at hout
  have hout2 := Except.ok.inj hout
  rw [← hout2, mkScenarios_length u1 u2 u3 _ _ (hu2.trans hu1.symm)
    (hu3.trans hu1.symm) (by simp [hi1, hu1]) (by simp [hi2, hu1]), hu1]

/-- Witness for the amended C8 at a single concrete sample. -/
theorem c8_amended_generate_total_witness :
    (lhs_generate [(1 : ℚ)/2] [(1 : ℚ)/2] [(1 : ℚ)/2] [0] [0] =
      Except.ok (mkScenarios [(1 : ℚ)/2] [(1 : ℚ)/2] [(1 : ℚ)/2]
        ([0].map (fun i => ld_list.getD (i % ld_list.length) 0))
        ([0].map (fun i => rd_list.getD (i % rd_list.length) 0))) ∧
    ∀ out, lhs_generate [(1 : ℚ)/2] [(1 : ℚ)/2] [(1 : ℚ)/2] [0] [0] =
      Except.ok out → out.length = 1) :=
  c8_amended_generate_total 1 [(1 : ℚ)/2] [(1 : ℚ)/2] [(1 : ℚ)/2] [0] [0]
    rfl rfl rfl rfl rfl

/-- Modelled from the spec: the pyDOE function `lhs` called at lines
18-20 of `raw-lhs-data-generation.py` is third-party library code that is
not part of this repository.  Following spec §4.2 step 1, a
Latin-Hypercube draw of `N` samples partitions `[0,1)` into `N` equal
strata and draws exactly one sample per stratum: `u i ∈ [0,1)` is the
position of sample `i` inside its stratum, and the permutation `σ`
shuffles which stratum each output position reports. -/
def lhsSamples (N : ℕ) (σ : Equiv.Perm (Fin N)) (u : Fin N → ℚ) : Fin N → ℚ :=
  fun i => (((σ i : ℕ) : ℚ) + u i) / N

theorem lhsSamples_mem_Ico_iff (N : ℕ) (σ : Equiv.Perm (Fin N)) (u : Fin N → ℚ)
    (hu : ∀ i, 0 ≤ u i ∧ u i < 1) (k i : Fin N) :
    lhsSamples N σ u i ∈ Set.Ico ((k : ℚ)/N) (((k : ℚ) + 1)/N) ↔ σ i = k := by
  have hN : (0 : ℚ) < (N : ℚ) := by
    have : 0 < N := k.pos
    exact_mod_cast this
  obtain ⟨h0, h1⟩ := hu i
  simp only [lhsSamples, Set.mem_Ico]
  rw [div_le_div_iff_of_pos_right hN, div_lt_div_iff_of_pos_right hN]
  constructor
  · rintro ⟨hlo, hhi⟩
    have hge : (k : ℕ) ≤ (σ i : ℕ) := by
      have : ((k : ℕ) : ℚ) < ((σ i : ℕ) : ℚ) + 1 := by linarith
      have := (by exact_mod_cast this : (k : ℕ) < (σ i : ℕ) + 1)
      omega
    have hle : (σ i : ℕ) ≤ (k : ℕ) := by
      have : ((σ i : ℕ) : ℚ) < ((k : ℕ) : ℚ) + 1 := by linarith
      have := (by exact_mod_cast this : (σ i : ℕ) < (k : ℕ) + 1)
      omega
    exact Fin.ext (le_antisymm hle hge)
  · intro h
    rw [h]
    constructor
    · linarith
    · linarith

/-- C9 (LHS stratification, modelled from the spec): for every stratum
index `k < N` there is exactly one sample falling in
`[k/N, (k+1)/N)` — the per-dimension projection of a Latin-Hypercube
draw covers every stratum exactly once. -/
theorem c9_lhs_stratification (N : ℕ) (σ : Equiv.Perm (Fin N)) (u : Fin N → ℚ)
    (hu : ∀ i, 0 ≤ u i ∧ u i < 1) (k : Fin N) :
    ∃! i : Fin N, lhsSamples N σ u i ∈ Set.Ico ((k : ℚ)/N) (((k : ℚ) + 1)/N) := by
  refine ⟨σ.symm k, ?_, ?_⟩
  · exact (lhsSamples_mem_Ico_iff N σ u hu k (σ.symm k)).mpr (σ.apply_symm_apply k)
  · intro j hj
    have hj2 : σ j = k := (lhsSamples_mem_Ico_iff N σ u hu k j).mp hj
    exact σ.injective (by rw [hj2, σ.apply_symm_apply])

/-- Witness for C9 with two strata, the identity shuffle and mid-stratum
draws. -/
theorem c9_lhs_stratification_witness :
    ∃! i : Fin 2, lhsSamples 2 (Equiv.refl (Fin 2)) (fun _ => (1 : ℚ)/2) i ∈
      Set.Ico (((0 : Fin 2) : ℚ)/2) ((((0 : Fin 2) : ℚ) + 1)/2) :=
  c9_lhs_stratification 2 (Equiv.refl (Fin 2)) (fun _ => (1 : ℚ)/2)
    (fun _ => by norm_num) 0

/-- The 1-based-to-0-based conversion performed by the Dataset
Partitioner when collecting training rows from stdin
(`test-set-generation.py` line 30, `train_set.append(int(row)-1)`). -/
def train_set (raw : List ℕ) : List ℤ :=
  raw.map (fun r : ℕ => (r : ℤ) - 1)

/-- Model of `dataset.drop(index=train_set)` (`test-set-generation.py`
line 33): keep, in their on-disk order, exactly the rows whose 0-based
position is not a converted training index. -/
def test_set {α : Type} (dataset : List α) (train0 : List ℤ) : List α :=
  (dataset.enum.filter (fun p => !decide ((p.1 : ℤ) ∈ train0))).map Prod.snd

/-- The 0-based row indices that survive into the test set. -/
def testIndices (M : ℕ) (train0 : List ℤ) : List ℕ :=
  (List.range M).filter (fun i : ℕ => !decide ((i : ℤ) ∈ train0))

theorem filter_not_length_add {α : Type} (l : List α) (p : α → Bool) :
    (l.filter (fun a => !p a)).length + (l.filter p).length = l.length := by
  induction l with
  | nil => rfl
  | cons a t ih => cases h : p a <;> simp [List.filter_cons, h] <;> omega

theorem range_filter_mem_length (M : ℕ) (t : List ℤ) (htnd : t.Nodup)
    (htmem : ∀ x ∈ t, 0 ≤ x ∧ x < (M : ℤ)) :
    ((List.range M).filter (fun i : ℕ => decide ((i : ℤ) ∈ t))).length = t.length := by
  have hinj : Function.Injective (fun i : ℕ => (i : ℤ)) := fun a b h =>
    Nat.cast_injective h
  have hnd1 : (((List.range M).filter (fun i : ℕ => decide ((i : ℤ) ∈ t))).map
      (fun i : ℕ => (i : ℤ))).Nodup :=
    ((List.nodup_range M).filter _).map hinj
  have hmem : ∀ a : ℤ, (a ∈ ((List.range M).filter
      (fun i : ℕ => decide ((i : ℤ) ∈ t))).map (fun i : ℕ => (i : ℤ))) ↔ a ∈ t := by
    intro a
    constructor
    · intro ha
      obtain ⟨i, hi, rfl⟩ := List.mem_map.mp ha
      exact of_decide_eq_true (List.mem_filter.mp hi).2
    · intro ha
      obtain ⟨h0, hM⟩ := htmem a ha
      refine List.mem_map.mpr ⟨a.toNat, List.mem_filter.mpr ⟨?_, ?_⟩, Int.toNat_of_nonneg h0⟩
      · exact List.mem_range.mpr (by omega)
      · exact decide_eq_true (by rwa [Int.toNat_of_nonneg h0])
  have hperm := (List.perm_ext_iff_of_nodup hnd1 htnd).mpr hmem
  have hlen := hperm.length_eq
  rwa [List.length_map] at hlen

/-- C6: for a dataset of `M` rows and `k` distinct 1-based training
indices in `[1, M]`, the Dataset Partitioner converts each index to
0-based and keeps the complement: the test set has exactly `M - k` rows,
every kept index is below `M`, and each 0-based position below `M` lies
in exactly one of the converted train list and the kept index list. -/
theorem c6_partition_completeness {α : Type} (dataset : List α) (raw : List ℕ)
    (hnd : raw.Nodup) (hin : ∀ r ∈ raw, 1 ≤ r ∧ r ≤ dataset.length) :
    (test_set dataset (train_set raw)).length = dataset.length - raw.length ∧
    (∀ i ∈ testIndices dataset.length (train_set raw), i < dataset.length) ∧
    (∀ i, i < dataset.length →
      (((i : ℤ) ∈ train_set raw) ↔ i ∉ testIndices dataset.length (train_set raw))) ∧
    (∀ i, i < dataset.length →
      ((i : ℤ) ∈ train_set raw ∨ i ∈ testIndices dataset.length (train_set raw))) := by
  have hinj : Function.Injective (fun r : ℕ => (r : ℤ) - 1) := by
    intro a b h
    simp only at h
    omega
  have htnd : (train_set raw).Nodup := by
    simp only [train_set]
    exact hnd.map hinj
  have htmem : ∀ x ∈ train_set raw, 0 ≤ x ∧ x < (dataset.length : ℤ) := by
    intro x hx
    simp only [train_set] at hx
    obtain ⟨r, hr, rfl⟩ := List.mem_map.mp hx
    obtain ⟨h1, h2⟩ := hin r hr
    omega
  have hkey : ((List.range dataset.length).filter
      (fun i : ℕ => decide ((i : ℤ) ∈ train_set raw))).length = raw.length := by
    rw [range_filter_mem_length dataset.length (train_set raw) htnd htmem]
    simp only [train_set, List.length_map]
  refine ⟨?_, ?_, ?_, ?_⟩
  · have h1 : (test_set dataset (train_set raw)).length =
        (dataset.enum.filter (fun p => !decide ((p.1 : ℤ) ∈ train_set raw))).length := by
      rw [test_set, List.length_map]
    have h2 : (dataset.enum.filter (fun p => !decide ((p.1 : ℤ) ∈ train_set raw))).length =
        ((List.range dataset.length).filter
          (fun i : ℕ => !decide ((i : ℤ) ∈ train_set raw))).length := by
      rw [← List.countP_eq_length_filter, ← List.countP_eq_length_filter,
        ← List.enum_map_fst dataset, List.countP_map]
      rfl
    have h3 := filter_not_length_add (List.range dataset.length)
      (fun i : ℕ => decide ((i : ℤ) ∈ train_set raw))
    rw [List.length_range] at h3
    rw [h1, h2]
    omega
  · intro i hi
    exact List.mem_range.mp (List.mem_filter.mp hi).1
  · intro i hiM
    constructor
    · intro hit hitest
      have hneg := (List.mem_filter.mp hitest).2
      simp [hit] at hneg
    · intro hitest
      by_contra hit
      exact hitest (List.mem_filter.mpr ⟨List.mem_range.mpr hiM, by simp [hit]⟩)
  · intro i hiM
    by_cases hit : (i : ℤ) ∈ train_set raw
    · exact Or.inl hit
    · exact Or.inr (List.mem_filter.mpr ⟨List.mem_range.mpr hiM, by simp [hit]⟩)


/-- Witness for C6: a four-row dataset with training rows 2 and 4. -/
theorem c6_partition_completeness_witness :
    ((test_set [(10 : ℚ), 20, 30, 40] (train_set [2, 4])).length =
      [(10 : ℚ), 20, 30, 40].length - [2, 4].length ∧
    (∀ i ∈ testIndices [(10 : ℚ), 20, 30, 40].length (train_set [2, 4]),
      i < [(10 : ℚ), 20, 30, 40].length) ∧
    (∀ i, i < [(10 : ℚ), 20, 30, 40].length →
      (((i : ℤ) ∈ train_set [2, 4]) ↔
        i ∉ testIndices [(10 : ℚ), 20, 30, 40].length (train_set [2, 4]))) ∧
    (∀ i, i < [(10 : ℚ), 20, 30, 40].length →
      ((i : ℤ) ∈ train_set [2, 4] ∨
        i ∈ testIndices [(10 : ℚ), 20, 30, 40].length (train_set [2, 4])))) :=
  c6_partition_completeness [(10 : ℚ), 20, 30, 40] [2, 4]
    (by decide) (by decide)

/-- The seven feature columns of a request body
(`lambda_function.py` lines 19-29). -/
structure Features where
  lr : ℚ
  lc : ℚ
  rc : ℚ
  ld : ℚ
  rd : ℚ
  lnnz : ℚ
  rnnz : ℚ
  deriving DecidableEq, Repr

/-- Path of the saved sm*sm model file (`lambda_function.py` line 9). -/
def smsm_model_file : String := "/var/task/dos/dos/model/smsm_dnn_model"

/-- The sm*sm predictor (`lambda_function.py` line 9): the model loaded
from the sm*sm model file.  `load` is the model loader
(`tf.keras.models.load_model` composed with `predict`), an input of the
embedding. -/
def smsm_dnn_model (load : String → Features → ℚ) : Features → ℚ :=
  load smsm_model_file

/-- The sm*dm predictor (`lambda_function.py` line 10): the source loads
it from the same sm*sm model file. -/
def smdm_dnn_model (load : String → Features → ℚ) : Features → ℚ :=
  load smsm_model_file

/-- The request handler (`lambda_function.py` lines 15-52): scales the
feature vector, queries both predictors, reports `smdm` when the sm*dm
prediction is less than or equal to the sm*sm one, and returns status
200 with the decision string. -/
def handler (load : String → Features → ℚ) (scaler : Features → Features)
    (body : Features) : ℕ × String :=
  let input_feature_scaler := scaler body
  let smsm_dnn_result := smsm_dnn_model load input_feature_scaler
  let smdm_dnn_result := smdm_dnn_model load input_feature_scaler
  let optim_method := if smdm_dnn_result ≤ smsm_dnn_result then "smdm" else "smsm"
  let result := "sm*sm : " ++ toString smsm_dnn_result ++ " , " ++
    "sm*dm : " ++ toString smdm_dnn_result ++ " , " ++
    "optim_method : " ++ optim_method
  (200, result)

theorem smdm_dnn_model_eq (load : String → Features → ℚ) :
    smdm_dnn_model load = smsm_dnn_model load := rfl

/-- C10: both predictors are loaded from the same sm*sm model file, so
for every loader, scaler and request body the two latency predictions
coincide and the returned decision string reports optim_method smdm. -/
theorem c10_handler_always_smdm (load : String → Features → ℚ)
    (scaler : Features → Features) (body : Features) :
    smsm_dnn_model load (scaler body) = smdm_dnn_model load (scaler body) ∧
    handler load scaler body =
      (200, "sm*sm : " ++ toString (smsm_dnn_model load (scaler body)) ++ " , " ++
        "sm*dm : " ++ toString (smsm_dnn_model load (scaler body)) ++ " , " ++
        "optim_method : " ++ "smdm") := by
  refine ⟨rfl, ?_⟩
  show (200, "sm*sm : " ++ toString (smsm_dnn_model load (scaler body)) ++ " , " ++
      "sm*dm : " ++ toString (smdm_dnn_model load (scaler body)) ++ " , " ++
      "optim_method : " ++
        (if smdm_dnn_model load (scaler body) ≤ smsm_dnn_model load (scaler body)
          then "smdm" else "smsm")) =
    (200, "sm*sm : " ++ toString (smsm_dnn_model load (scaler body)) ++ " , " ++
      "sm*dm : " ++ toString (smsm_dnn_model load (scaler body)) ++ " , " ++
      "optim_method : " ++ "smdm")
  rw [smdm_dnn_model_eq load, if_pos le_rfl]

end Dos
